import Mathlib

/-!
# Verification of the open-book order-book decoding core

Shallow embedding of the slab (critbit-tree) decoder, search and traversal,
the depth (L2) aggregator, the price-key codec, the fill-event parser and
the fee-tier table of the repository, together with proofs settling the
frozen specification claims.

Machine integers are modelled as `Nat` with explicit `% 2 ^ w` where
wrap-around matters.  Fallible paths are modelled with `Option`/`Except`;
an abnormal termination of the source (a Rust `panic` / out-of-range index
/ non-exhaustive `match`) is a dedicated result constructor or `none`,
never a default value.  Floating-point results (`f64`) that the claims
treat only algebraically are modelled as exact rationals `ℚ`.
-/

namespace OpenBook

/-- Width constant for `u128` wrap-around arithmetic. -/
def U128 : Nat := 2 ^ 128

/-- Wrapping `u128` addition (release-mode semantics of `a + b` on `u128`). -/
def u128add (a b : Nat) : Nat := (a + b) % U128

/-- Wrapping `u128` subtraction (valid model for operands `< 2 ^ 128`). -/
def u128sub (a b : Nat) : Nat := (a + U128 - b % U128) % U128

/-! ## Price-key codec

`src/src/openbook/order.rs:495-497`:
`fn get_price_from_key(key: u128) -> u64 { key >> 64 }`. -/

/-- Source `get_price_from_key` (order.rs:495): the high 64 bits of the key. -/
def get_price_from_key (key : Nat) : Nat := key >>> 64

/-- Modelled from the spec: §4.2 Price-Key Codec.  The source repository has
no `encode` function (only `get_price_from_key`); the spec pins the
ascending side to `key = price << 64 | sequence` and requires the bid side
to invert the price bits (one's complement) while keeping the sequence. -/
def encodeKey (isBids : Bool) (price seq : Nat) : Nat :=
  if isBids then (((2 ^ 64 - 1) - price) <<< 64) ||| seq
  else (price <<< 64) ||| seq

/-- Modelled from the spec: §4.2 Price-Key Codec, inverse direction.  The
price is the (side-adjusted) high 64 bits, the sequence the low 64 bits. -/
def decodeKey (isBids : Bool) (key : Nat) : Nat × Nat :=
  (if isBids then (2 ^ 64 - 1) - (key >>> 64) else key >>> 64,
   key &&& (2 ^ 64 - 1))

/-! ## Slab data model (`src/src/openbook/slab.rs:15-50`) -/

/-- Slab header (slab.rs:21-28). -/
structure Header where
  bump_index : Nat
  free_list_len : Nat
  free_list_head : Nat
  root : Nat
  leaf_count : Nat
deriving Repr, DecidableEq

/-- The five tagged node variants (slab.rs:30-50).  The `children : [u32; 2]`
array of an inner node is split into `child0`/`child1`. -/
inductive SlabNode where
  | uninitialized
  | innerNode (prefix_len : Nat) (key : Nat) (child0 child1 : Nat)
  | leafNode (owner_slot fee_tier : Nat) (key : Nat) (owner : Nat)
      (quantity : Nat) (client_order_id : Nat)
  | freeNode (next : Nat)
  | lastFreeNode
deriving Repr, DecidableEq

/-- Whether a node is a leaf. -/
def SlabNode.isLeaf : SlabNode → Bool
  | .leafNode _ _ _ _ _ _ => true
  | _ => false

/-- The 128-bit ordering key stored in a node (0 for variants without one;
the traversal and aggregation code only reads it off leaves). -/
def SlabNode.key : SlabNode → Nat
  | .innerNode _ k _ _ => k
  | .leafNode _ _ k _ _ _ => k
  | _ => 0

/-- The resting quantity stored in a leaf (0 for other variants). -/
def SlabNode.quantity : SlabNode → Nat
  | .leafNode _ _ _ _ q _ => q
  | _ => 0

/-- A slab: header plus the node arena (slab.rs:15-19). -/
structure Slab where
  header : Header
  nodes : List SlabNode
deriving Repr, DecidableEq

/-! ## Slab point lookup (`src/src/openbook/slab.rs:94-125`)

The source descends in an unbounded `loop`; reaching a `Free` or
`Uninitialized` node executes `panic!`, and indexing `self.nodes[index]`
out of range also panics.  The descent itself carries no step counter, so
we embed it with explicit fuel: `outOfFuel` means the descent was still
running after the given number of steps. -/

/-- Result of the point lookup. -/
inductive GetResult where
  | found (node : SlabNode)
  | notFound
  | panicked
  | outOfFuel
deriving Repr, DecidableEq

/-- The descent loop of `Slab::get` (slab.rs:108-124), fuel-indexed.  One
unit of fuel is one iteration of the source's `loop`. -/
def getLoop (s : Slab) (key : Nat) : Nat → Nat → GetResult
  | _, 0 => .outOfFuel
  | index, fuel + 1 =>
    match s.nodes[index]? with
    | none => .panicked
    | some (.leafNode os ft k ow q c) =>
        if k = key then .found (.leafNode os ft k ow q c) else .notFound
    | some (.innerNode prefix_len k c0 c1) =>
        if (k ^^^ key) >>> (128 - prefix_len) ≠ 0 then .notFound
        else getLoop s key (if key.testBit (128 - prefix_len - 1) then c1 else c0) fuel
    | some _ => .panicked

/-- `Slab::get` (slab.rs:94-125): empty-tree check, a pre-check when the
root is itself a leaf (slab.rs:100-106), then the descent loop. -/
def Slab.get (s : Slab) (key : Nat) (fuel : Nat) : GetResult :=
  if s.header.leaf_count = 0 then .notFound
  else
    match s.nodes[s.header.root]? with
    | none => .panicked
    | some (.leafNode os ft k ow q c) =>
        if k = key then .found (.leafNode os ft k ow q c) else .notFound
    | some _ => getLoop s key s.header.root fuel

/-! ## Slab traversal (`src/src/openbook/slab.rs:131-155`)

`Slab::items` builds an `iter::from_fn` closure over an explicit stack
seeded with the root.  The closure returns `Some(node)` only when the
popped node is a leaf; in every other case — an inner node (after pushing
its children in `descending`-dependent order), a free node, an
uninitialized node, or an empty stack — control falls through to the
final `None`.  `iter::from_fn` treats `None` as end of iteration, so the
iterator ends at the first non-leaf pop: the pushed children are never
visited, and the `descending` flag has no observable effect.  Since the
stack is only ever popped before the iterator ends, it never holds more
than the initial root. -/

/-- Traversal outcome: the yielded leaves, or a panic on an out-of-range
node index. -/
inductive ItemsResult where
  | out (leaves : List SlabNode)
  | panicked
deriving Repr, DecidableEq

/-- Runs the `iter::from_fn` closure of `Slab::items` to completion over a
stack of node indices (see the section comment for why non-leaf nodes end
the iteration). -/
def itemsRun (s : Slab) : List Nat → ItemsResult
  | [] => .out []
  | i :: rest =>
    match s.nodes[i]? with
    | none => .panicked
    | some (.leafNode os ft k ow q c) =>
        match itemsRun s rest with
        | .out l => .out (.leafNode os ft k ow q c :: l)
        | .panicked => .panicked
    | some _ => .out []

/-- `Slab::items` (slab.rs:131-155). -/
def Slab.items (s : Slab) (descending : Bool) : ItemsResult :=
  itemsRun s [s.header.root]

/-! ## Market conversion parameters (`src/src/openbook/market.rs`) -/

/-- The lot-size and decimal configuration a `Market` carries
(market.rs:59-72 and the `decoded` lot sizes). -/
structure MarketParams where
  base_lot_size : Nat
  quote_lot_size : Nat
  base_spl_token_decimals : Nat
  quote_spl_token_decimals : Nat
deriving Repr, DecidableEq

/-- `Market::base_spl_token_multiplier` (market.rs:1369-1371). -/
def MarketParams.base_spl_token_multiplier (m : MarketParams) : Nat :=
  10 ^ m.base_spl_token_decimals

/-- `Market::quote_spl_token_multiplier` (market.rs:1373-1375). -/
def MarketParams.quote_spl_token_multiplier (m : MarketParams) : Nat :=
  10 ^ m.quote_spl_token_decimals

/-- Exact-value model of `divide_bn_to_number` (order.rs:499-530).  Every
branch of the source computes an `f64` approximation of the quotient
`n / d` (branch 1 computes it exactly when both operands fit in 53 bits);
we model the exact rational quotient.  Claims about the 53-bit rounding
behaviour itself are floating-point properties outside this embedding. -/
def divide_bn_to_number (n d : Nat) : ℚ := (n : ℚ) / (d : ℚ)

/-- `Market::price_lots_to_number` (market.rs:1377-1382). -/
def MarketParams.price_lots_to_number (m : MarketParams) (price : Nat) : ℚ :=
  divide_bn_to_number (price * m.quote_lot_size * m.base_spl_token_multiplier)
    (m.base_lot_size * m.quote_spl_token_multiplier)

/-- `Market::base_size_lots_to_number` (market.rs:1407-1412). -/
def MarketParams.base_size_lots_to_number (m : MarketParams) (size : Nat) : ℚ :=
  divide_bn_to_number (size * m.base_lot_size) m.base_spl_token_multiplier

/-- `Market::quote_spl_size_to_number` (market.rs:1395-1397). -/
def MarketParams.quote_spl_size_to_number (m : MarketParams) (size : Nat) : ℚ :=
  divide_bn_to_number size m.quote_spl_token_multiplier

/-! ## Orderbook (`src/src/openbook/order.rs:392-467`) -/

/-- Account flag bits as decoded from an account header. -/
structure AccountFlags where
  initialized : Bool
  market : Bool
  open_orders : Bool
  request_queue : Bool
  event_queue : Bool
  bids : Bool
  asks : Bool
deriving Repr, DecidableEq

/-- One side of the book (order.rs:392-396). -/
structure Orderbook where
  market : MarketParams
  is_bids : Bool
  slab : Slab

/-- `Orderbook::new` (order.rs:399-409): rejects flags unless `initialized`
is set and exactly one of `bids`/`asks` is set. -/
def Orderbook.new (market : MarketParams) (account_flags : AccountFlags)
    (slab : Slab) : Except String Orderbook :=
  if !account_flags.initialized || !(Bool.xor account_flags.bids account_flags.asks) then
    .error "Invalid orderbook"
  else
    .ok { market := market, is_bids := account_flags.bids, slab := slab }

/-- The level-accumulation loop of `Orderbook::get_l2` (order.rs:423-435):
merge a leaf into the last level when the price matches, otherwise stop
once `depth` levels exist, otherwise append a new level. -/
def l2Loop (depth : Nat) : List SlabNode → List (Nat × Nat) → List (Nat × Nat)
  | [], levels => levels
  | item :: rest, levels =>
    let price := get_price_from_key item.key
    match levels.getLast? with
    | some (lp, lq) =>
      if lp = price then
        l2Loop depth rest (levels.dropLast ++ [(lp, lq + item.quantity)])
      else if levels.length = depth then levels
      else l2Loop depth rest (levels ++ [(price, item.quantity)])
    | none =>
      if levels.length = depth then levels
      else l2Loop depth rest (levels ++ [(price, item.quantity)])

/-- `Orderbook::get_l2` (order.rs:420-447): traverse (`descending` is the
bid flag), aggregate into price levels, then convert each level.  `none`
propagates a traversal panic. -/
def Orderbook.get_l2 (ob : Orderbook) (depth : Nat) :
    Option (List (ℚ × ℚ × Nat × Nat)) :=
  match ob.slab.items ob.is_bids with
  | .panicked => none
  | .out leaves =>
    some ((l2Loop depth leaves []).map (fun pq =>
      (ob.market.price_lots_to_number pq.1, ob.market.base_size_lots_to_number pq.2,
       pq.1, pq.2)))

/-! ## Event queue and fill parsing
(`src/src/openbook/queue.rs:103-135`, `src/src/openbook/market.rs:1316-1367`) -/

/-- Event flag bits (queue.rs:103-110): FILL = 0x1, OUT = 0x2, BID = 0x4,
MAKER = 0x8. -/
structure EventFlags where
  fill : Bool
  out : Bool
  bid : Bool
  maker : Bool
deriving Repr, DecidableEq

/-- An event record (queue.rs:125-135; the `u128`-quantity variant used by
`parse_fill_event`). -/
structure Event where
  event_flags : EventFlags
  open_orders_slot : Nat
  fee_tier : Nat
  native_quantity_released : Nat
  native_quantity_paid : Nat
  native_fee_or_rebate : Nat
  order_id : Nat
  open_orders : Nat
  client_order_id : Nat
deriving Repr, DecidableEq

/-- The fill filter of `Market::load_fills` (market.rs:1321-1322): keep
events with the fill flag set and nonzero paid quantity. -/
def load_fills_filter (events : List Event) : List Event :=
  events.filter (fun e => e.event_flags.fill && decide (0 < e.native_quantity_paid))

/-- `price_before_fees` of a buy fill (market.rs:1333-1337), with `u128`
wrap-around semantics. -/
def buyPriceBeforeFees (e : Event) : Nat :=
  if e.event_flags.maker then
    u128add e.native_quantity_paid e.native_fee_or_rebate
  else
    u128sub e.native_quantity_paid e.native_fee_or_rebate

/-- `price_before_fees` of a sell fill (market.rs:1347-1351), with `u128`
wrap-around semantics. -/
def sellPriceBeforeFees (e : Event) : Nat :=
  if e.event_flags.maker then
    u128sub e.native_quantity_released e.native_fee_or_rebate
  else
    u128add e.native_quantity_released e.native_fee_or_rebate

/-- A parsed fill (market.rs:1359-1366). -/
structure FillEvent where
  event : Event
  side : String
  price : ℚ
  fee_cost : ℚ
  size : ℚ

/-- `Market::parse_fill_event` (market.rs:1327-1367). -/
def MarketParams.parse_fill_event (m : MarketParams) (event : Event) : FillEvent :=
  if event.event_flags.bid then
    { event := event
      side := "buy"
      price := divide_bn_to_number
        (buyPriceBeforeFees event * m.base_spl_token_multiplier)
        (m.quote_spl_token_multiplier * event.native_quantity_released)
      size := divide_bn_to_number event.native_quantity_released m.base_spl_token_multiplier
      fee_cost := m.quote_spl_size_to_number event.native_fee_or_rebate *
        (if event.event_flags.maker then -1 else 1) }
  else
    { event := event
      side := "sell"
      price := divide_bn_to_number
        (sellPriceBeforeFees event * m.base_spl_token_multiplier)
        (m.quote_spl_token_multiplier * event.native_quantity_paid)
      size := divide_bn_to_number event.native_quantity_paid m.base_spl_token_multiplier
      fee_cost := m.quote_spl_size_to_number event.native_fee_or_rebate *
        (if event.event_flags.maker then -1 else 1) }

/-! ## Byte-level slab decoding (`src/src/openbook/slab.rs:52-91, 173-183`)

The node record is a 4-byte little-endian tag plus a 68-byte payload
region (stride 72); the header is 28 bytes.  The source performs no
length validation and defines no error type: a read past the end of the
buffer or a tag outside the five known variants aborts the decode (there
is no match arm / the read throws), which we model as `none`.  No default
value is ever substituted. -/

/-- Read `len` bytes at offset `off` as a little-endian natural number;
`none` when the buffer is too short (the source's unchecked read aborts). -/
def readLE (b : List Nat) (off len : Nat) : Option Nat :=
  if off + len ≤ b.length then
    some (((b.drop off).take len).reverse.foldl (fun acc byte => acc * 256 + byte) 0)
  else none

/-- Decode one node record at offset `off` (slab.rs:62-86).  Tags 0-4 select
the five variants; any other tag has no match arm: `none`. -/
def decodeSlabNode (b : List Nat) (off : Nat) : Option SlabNode := do
  let tag ← readLE b off 4
  match tag with
  | 0 => pure .uninitialized
  | 1 => do
      let prefix_len ← readLE b (off + 4) 4
      let key ← readLE b (off + 8) 16
      let c0 ← readLE b (off + 24) 4
      let c1 ← readLE b (off + 28) 4
      pure (.innerNode prefix_len key c0 c1)
  | 2 => do
      let owner_slot ← readLE b (off + 4) 1
      let fee_tier ← readLE b (off + 5) 1
      let key ← readLE b (off + 8) 16
      let owner ← readLE b (off + 24) 32
      let quantity ← readLE b (off + 56) 8
      let client_order_id ← readLE b (off + 64) 8
      pure (.leafNode owner_slot fee_tier key owner quantity client_order_id)
  | 3 => do
      let next ← readLE b (off + 4) 4
      pure (.freeNode next)
  | 4 => pure .lastFreeNode
  | _ => none

/-- Decode the 28-byte slab header (slab.rs:52-60): `u32 bump_index`,
4 padding bytes, `u32 free_list_len`, 4 padding bytes, `u32
free_list_head`, `u32 root`, `u32 leaf_count`. -/
def decodeSlabHeader (b : List Nat) : Option Header := do
  let bump_index ← readLE b 0 4
  let free_list_len ← readLE b 8 4
  let free_list_head ← readLE b 16 4
  let root ← readLE b 20 4
  let leaf_count ← readLE b 24 4
  pure { bump_index := bump_index, free_list_len := free_list_len,
         free_list_head := free_list_head, root := root, leaf_count := leaf_count }

/-- Decode `count` consecutive node records of stride 72 starting at `off`. -/
def decodeNodes (b : List Nat) (off : Nat) : Nat → Option (List SlabNode)
  | 0 => some []
  | k + 1 => do
      let n ← decodeSlabNode b off
      let rest ← decodeNodes b (off + 72) k
      pure (n :: rest)

/-- Decode a slab buffer (slab.rs:88-91, 173-183): the header, then —
following `seq(slab_node_layout, offset(|v| v.0.bumpIndex, ...))` —
`bump_index` node records.  The source checks neither that the buffer
length matches the declared node count nor that the remainder is a
multiple of the record stride. -/
def decodeSlab (b : List Nat) : Option Slab := do
  let header ← decodeSlabHeader b
  let nodes ← decodeNodes b 28 header.bump_index
  pure { header := header, nodes := nodes }

/-! ## Fee tiers (`src/src/openbook/fees.rs:47-63`)

The balances are `f64` in the source; the function only compares them
against constants, so we model them as exact rationals. -/

/-- Source `get_fee_tier` (fees.rs:47-63), balances modelled as `ℚ`. -/
def get_fee_tier (msrm_balance srm_balance : ℚ) : Nat :=
  if msrm_balance ≥ 1 then 6
  else if srm_balance ≥ 1000000 then 5
  else if srm_balance ≥ 100000 then 4
  else if srm_balance ≥ 10000 then 3
  else if srm_balance ≥ 1000 then 2
  else if srm_balance ≥ 100 then 1
  else 0

/-! ## Concrete inputs used by the claims -/

/-- Key of the leaf (price = 100, seq = 1) on the ascending side. -/
def exKeyA : Nat := 100 * 2 ^ 64 + 1

/-- Key of the leaf (price = 100, seq = 2). -/
def exKeyB : Nat := 100 * 2 ^ 64 + 2

/-- Key of the leaf (price = 101, seq = 3). -/
def exKeyC : Nat := 101 * 2 ^ 64 + 3

/-- Market with lot sizes 1 and zero decimals: lot values convert to
themselves. -/
def exMarket : MarketParams :=
  { base_lot_size := 1, quote_lot_size := 1,
    base_spl_token_decimals := 0, quote_spl_token_decimals := 0 }

/-- Market with six base and six quote decimals (the spec's fill example). -/
def exMarket6 : MarketParams :=
  { base_lot_size := 1, quote_lot_size := 1,
    base_spl_token_decimals := 6, quote_spl_token_decimals := 6 }

/-- The spec's three-leaf slab, as a well-formed critbit tree: the root
branches on key bit 64 (price 100 vs 101, so `prefix_len = 63`), its low
subtree branches on key bit 1 (sequence 1 vs 2, `prefix_len = 126`). -/
def exampleSlab3 : Slab :=
  { header := { bump_index := 5, free_list_len := 0, free_list_head := 0,
                root := 0, leaf_count := 3 }
    nodes :=
      [ .innerNode 63 exKeyA 1 2,
        .innerNode 126 exKeyA 3 4,
        .leafNode 0 0 exKeyC 0 7 0,
        .leafNode 0 0 exKeyA 0 5 0,
        .leafNode 0 0 exKeyB 0 3 0 ] }

/-- The three-leaf slab mounted as the ask side of a book (ascending
priority, `is_bids = false`). -/
def exampleOrderbook3 : Orderbook :=
  { market := exMarket, is_bids := false, slab := exampleSlab3 }

/-- A two-leaf slab: inner root branching on key bit 64, leaves with
prices 100 and 101. -/
def twoLeafSlab : Slab :=
  { header := { bump_index := 3, free_list_len := 0, free_list_head := 0,
                root := 0, leaf_count := 2 }
    nodes :=
      [ .innerNode 63 exKeyA 1 2,
        .leafNode 0 0 exKeyA 0 5 0,
        .leafNode 0 0 exKeyC 0 7 0 ] }

/-- A malformed slab whose single inner node lists itself as both
children: the search descent revisits index 0 forever. -/
def cycSlab : Slab :=
  { header := { bump_index := 1, free_list_len := 0, free_list_head := 0,
                root := 0, leaf_count := 1 }
    nodes := [ .innerNode 0 0 0 0 ] }

/-- A slab declaring `leaf_count = 0` whose root slot nevertheless holds a
(stale) leaf. -/
def staleSlab : Slab :=
  { header := { bump_index := 1, free_list_len := 0, free_list_head := 0,
                root := 0, leaf_count := 0 }
    nodes := [ .leafNode 0 0 exKeyA 0 5 0 ] }

/-- A well-formed empty slab: `leaf_count = 0` and the root slot recycled
into the free list. -/
def emptyFreeSlab : Slab :=
  { header := { bump_index := 1, free_list_len := 1, free_list_head := 0,
                root := 0, leaf_count := 0 }
    nodes := [ .lastFreeNode ] }

/-- Account flags of a valid bid-side book. -/
def okFlags : AccountFlags :=
  { initialized := true, market := false, open_orders := false,
    request_queue := false, event_queue := false, bids := true, asks := false }

/-- The spec's fill-example event: flags {FILL, BID, MAKER},
`native_quantity_paid = 1_000_000`, `native_quantity_released =
2_000_000_000`, `native_fee_or_rebate = 2_000`. -/
def exFillEvent : Event :=
  { event_flags := { fill := true, out := false, bid := true, maker := true }
    open_orders_slot := 0, fee_tier := 0
    native_quantity_released := 2000000000
    native_quantity_paid := 1000000
    native_fee_or_rebate := 2000
    order_id := 0, open_orders := 0, client_order_id := 0 }

/-- A slab buffer: valid 28-byte header declaring one node, followed by
one 72-byte node record whose tag is 99. -/
def buf99 : List Nat :=
  (1 :: List.replicate 27 0) ++ (99 :: List.replicate 71 0)

/-- A slab buffer whose header declares two nodes but which contains only
one 72-byte record after the header. -/
def shortBuf : List Nat :=
  (2 :: List.replicate 27 0) ++ (0 :: List.replicate 71 0)

/-! ## Shared helper lemmas -/

/-- The high 64 bits of `p <<< 64 ||| s` are `p` whenever `s` fits in 64
bits. -/
lemma lor_shiftLeft_shiftRight (p s : Nat) (hs : s < 2 ^ 64) :
    ((p <<< 64) ||| s) >>> 64 = p := by
  apply Nat.eq_of_testBit_eq
  intro j
  rw [Nat.testBit_shiftRight, Nat.testBit_or, Nat.testBit_shiftLeft]
  have h1 : s.testBit (64 + j) = false :=
    Nat.testBit_eq_false_of_lt
      (lt_of_lt_of_le hs (Nat.pow_le_pow_right (by norm_num) (by omega)))
  simp [h1]

/-- The low 64 bits of `p <<< 64 ||| s` are `s` whenever `s` fits in 64
bits. -/
lemma lor_shiftLeft_and (p s : Nat) (hs : s < 2 ^ 64) :
    ((p <<< 64) ||| s) &&& (2 ^ 64 - 1) = s := by
  rw [Nat.and_pow_two_sub_one_eq_mod]
  apply Nat.eq_of_testBit_eq
  intro j
  rw [Nat.testBit_mod_two_pow, Nat.testBit_or, Nat.testBit_shiftLeft]
  by_cases hj : j < 64
  · simp [hj, Nat.not_le.mpr hj]
  · have h1 : s.testBit j = false :=
      Nat.testBit_eq_false_of_lt
        (lt_of_lt_of_le hs (Nat.pow_le_pow_right (by norm_num) (by omega)))
    simp [hj, h1]

/-- Decimal value of `2 ^ 128`, for linear arithmetic over `U128`. -/
lemma U128_eq : U128 = 340282366920938463463374607431768211456 := by
  norm_num [U128]

/-! ## Claim theorems -/

/-- Claim C5: for all `u64` values `p` and `s` and each side, decoding the
128-bit price key recovers price and sequence exactly
(`decode (encode side p s) = (p, s)`), and the price component of a key
built as `price << 64 | sequence` is recovered as the high 64 bits
(`get_price_from_key` returns `key >> 64`). -/
theorem key_codec_roundtrip (p s : Nat) (hp : p < 2 ^ 64) (hs : s < 2 ^ 64) :
    (∀ isBids : Bool, decodeKey isBids (encodeKey isBids p s) = (p, s)) ∧
    get_price_from_key ((p <<< 64) ||| s) = p := by
  constructor
  · intro isBids
    cases isBids with
    | false =>
        simp only [decodeKey, encodeKey, if_false, Bool.false_eq_true, if_neg,
          lor_shiftLeft_shiftRight p s hs, lor_shiftLeft_and p s hs]
    | true =>
        simp only [decodeKey, encodeKey, if_true,
          lor_shiftLeft_shiftRight ((2 ^ 64 - 1) - p) s hs, lor_shiftLeft_and ((2 ^ 64 - 1) - p) s hs]
        refine Prod.ext ?_ rfl
        show (2 ^ 64 - 1) - ((2 ^ 64 - 1) - p) = p
        omega
  · show ((p <<< 64) ||| s) >>> 64 = p
    exact lor_shiftLeft_shiftRight p s hs

/-- Witness for `key_codec_roundtrip` at `p = 3`, `s = 5`. -/
theorem key_codec_roundtrip_witness :
    3 < 2 ^ 64 ∧ 5 < 2 ^ 64 ∧
    decodeKey true (encodeKey true 3 5) = (3, 5) ∧
    get_price_from_key ((3 <<< 64) ||| 5) = 3 :=
  ⟨by norm_num, by norm_num,
   (key_codec_roundtrip 3 5 (by norm_num) (by norm_num)).1 true,
   (key_codec_roundtrip 3 5 (by norm_num) (by norm_num)).2⟩

/-- Claim C10: `get_fee_tier` returns tier 6 iff `msrm_balance ≥ 1`; below
that the result depends only on `srm_balance`, is monotone non-decreasing
in it, and ranges over tiers 0 through 5. -/
theorem fee_tier_spec :
    (∀ m s : ℚ, get_fee_tier m s = 6 ↔ 1 ≤ m) ∧
    (∀ m m' s : ℚ, m < 1 → m' < 1 → get_fee_tier m s = get_fee_tier m' s) ∧
    (∀ m s s' : ℚ, m < 1 → s ≤ s' → get_fee_tier m s ≤ get_fee_tier m s') ∧
    (∀ m s : ℚ, m < 1 → get_fee_tier m s ≤ 5) := by
  refine ⟨?_, ?_, ?_, ?_⟩
  · intro m s
    unfold get_fee_tier
    split_ifs with h h2 h3 h4 h5 h6 <;>
      first
        | exact iff_of_true rfl h
        | exact iff_of_false (by norm_num) h
  · intro m m' s hm hm'
    unfold get_fee_tier
    split_ifs <;> first | rfl | (exfalso; linarith)
  · intro m s s' hm hs
    unfold get_fee_tier
    split_ifs <;> first | omega | (exfalso; linarith)
  · intro m s hm
    unfold get_fee_tier
    split_ifs <;> first | omega | (exfalso; linarith)

/-- Witness for `fee_tier_spec`: monotone step from tier 2 to tier 3 at
`msrm = 1/2`, and boundedness. -/
theorem fee_tier_spec_witness :
    (1 : ℚ) / 2 < 1 ∧ (1000 : ℚ) ≤ 20000 ∧
    get_fee_tier (1 / 2) 1000 ≤ get_fee_tier (1 / 2) 20000 ∧
    get_fee_tier (1 / 2) 1000 ≤ 5 :=
  ⟨by norm_num, by norm_num,
   fee_tier_spec.2.2.1 (1 / 2) 1000 20000 (by norm_num) (by norm_num),
   fee_tier_spec.2.2.2 (1 / 2) 1000 (by norm_num)⟩

/-- Claim C9: `Orderbook::new` (hence `Orderbook::decode`, which feeds the
layout-decoded flags and slab straight into it) succeeds exactly when the
account flags have `initialized` set and exactly one of `bids`/`asks` set,
and a constructed orderbook's `is_bids` equals the `bids` flag. -/
theorem orderbook_new_spec (m : MarketParams) (f : AccountFlags) (s : Slab) :
    ((∃ ob, Orderbook.new m f s = .ok ob) ↔
      (f.initialized = true ∧ f.bids ≠ f.asks)) ∧
    (∀ ob, Orderbook.new m f s = .ok ob → ob.is_bids = f.bids) := by
  unfold Orderbook.new
  cases hi : f.initialized <;> cases hb : f.bids <;> cases ha : f.asks <;>
    constructor <;>
      simp_all [Bool.xor]

/-- Witness for `orderbook_new_spec`: a bid side with valid flags is
accepted with `is_bids = true`. -/
theorem orderbook_new_spec_witness :
    okFlags.initialized = true ∧ okFlags.bids ≠ okFlags.asks ∧
    (∃ ob, Orderbook.new exMarket okFlags emptyFreeSlab = .ok ob) ∧
    (Orderbook.mk exMarket true emptyFreeSlab).is_bids = okFlags.bids :=
  ⟨rfl, by decide,
   (orderbook_new_spec exMarket okFlags emptyFreeSlab).1.mpr ⟨rfl, by decide⟩,
   (orderbook_new_spec exMarket okFlags emptyFreeSlab).2
     (Orderbook.mk exMarket true emptyFreeSlab) rfl⟩

/-- Claim C6: a parsed fill's side is "buy" exactly when the BID flag is
set; for a buy fill the effective quote paid (`price_before_fees`) is
`native_quantity_paid + native_fee_or_rebate` when the MAKER flag is set
and `native_quantity_paid - native_fee_or_rebate` otherwise, and the
parsed price is built from it; `fee_cost` is the converted fee amount
negated when MAKER is set and left as-is (positive) when it is not. -/
theorem parse_fill_event_spec (m : MarketParams) (e : Event)
    (hp : e.native_quantity_paid < U128) (hf : e.native_fee_or_rebate < U128) :
    ((m.parse_fill_event e).side = "buy" ↔ e.event_flags.bid = true) ∧
    (e.event_flags.maker = true →
      e.native_quantity_paid + e.native_fee_or_rebate < U128 →
      buyPriceBeforeFees e = e.native_quantity_paid + e.native_fee_or_rebate) ∧
    (e.event_flags.maker = false →
      e.native_fee_or_rebate ≤ e.native_quantity_paid →
      buyPriceBeforeFees e = e.native_quantity_paid - e.native_fee_or_rebate) ∧
    (e.event_flags.bid = true →
      (m.parse_fill_event e).price = divide_bn_to_number
        (buyPriceBeforeFees e * m.base_spl_token_multiplier)
        (m.quote_spl_token_multiplier * e.native_quantity_released)) ∧
    (e.event_flags.maker = true →
      (m.parse_fill_event e).fee_cost =
        -(m.quote_spl_size_to_number e.native_fee_or_rebate)) ∧
    (e.event_flags.maker = false →
      (m.parse_fill_event e).fee_cost =
        m.quote_spl_size_to_number e.native_fee_or_rebate) := by
  have hU := U128_eq
  refine ⟨?_, ?_, ?_, ?_, ?_, ?_⟩
  · unfold MarketParams.parse_fill_event
    cases hb : e.event_flags.bid <;> simp
  · intro hm hlt
    unfold buyPriceBeforeFees u128add
    rw [hm, if_pos rfl]
    rw [U128_eq] at hlt ⊢
    omega
  · intro hm hle
    unfold buyPriceBeforeFees u128sub
    rw [hm]
    simp only [Bool.false_eq_true, if_false]
    rw [U128_eq] at hp hf ⊢
    omega
  · intro hb
    unfold MarketParams.parse_fill_event
    rw [hb, if_pos rfl]
  · intro hm
    unfold MarketParams.parse_fill_event
    cases hb : e.event_flags.bid <;> simp [hm, mul_comm]
  · intro hm
    unfold MarketParams.parse_fill_event
    cases hb : e.event_flags.bid <;> simp [hm]

/-- Witness for `parse_fill_event_spec`: the spec's fill example — flags
{FILL, BID, MAKER}, paid 1 000 000, released 2 000 000 000, fee 2 000,
six base and six quote decimals — parses as a buy with a negative
(rebate) fee cost. -/
theorem parse_fill_event_spec_witness :
    exFillEvent.native_quantity_paid < U128 ∧
    exFillEvent.native_fee_or_rebate < U128 ∧
    ((exMarket6.parse_fill_event exFillEvent).side = "buy" ↔
      exFillEvent.event_flags.bid = true) ∧
    buyPriceBeforeFees exFillEvent = 1000000 + 2000 ∧
    (exMarket6.parse_fill_event exFillEvent).fee_cost =
      -(exMarket6.quote_spl_size_to_number exFillEvent.native_fee_or_rebate) ∧
    (exMarket6.parse_fill_event exFillEvent).fee_cost < 0 := by
  have h := parse_fill_event_spec exMarket6 exFillEvent
    (by rw [U128_eq]; norm_num [exFillEvent])
    (by rw [U128_eq]; norm_num [exFillEvent])
  refine ⟨by rw [U128_eq]; norm_num [exFillEvent],
          by rw [U128_eq]; norm_num [exFillEvent],
          h.1, h.2.1 rfl (by rw [U128_eq]; norm_num [exFillEvent]), ?_, ?_⟩
  · exact h.2.2.2.2.1 rfl
  · rw [h.2.2.2.2.1 rfl]
    norm_num [MarketParams.quote_spl_size_to_number, divide_bn_to_number,
      MarketParams.quote_spl_token_multiplier, exMarket6, exFillEvent]

/-- Claim C1, failing-input evaluation: on the spec's three-leaf ask-side
example (leaves (100,5,1), (100,3,2), (101,7,3)), `get_l2` with depth 2
returns the empty list — not `[(100, 8), (101, 7)]` — because the
traversal iterator ends at the inner root node. -/
theorem get_l2_example_empty :
    exampleOrderbook3.get_l2 2 = some [] ∧
    exampleSlab3.header.leaf_count = 3 ∧
    exampleSlab3.nodes =
      [ .innerNode 63 exKeyA 1 2,
        .innerNode 126 exKeyA 3 4,
        .leafNode 0 0 exKeyC 0 7 0,
        .leafNode 0 0 exKeyA 0 5 0,
        .leafNode 0 0 exKeyB 0 3 0 ] := by
  refine ⟨by decide, rfl, rfl⟩

/-- Claim C2, failing-input evaluation: on a two-leaf slab whose root is an
`Inner` node, the traversal yields no leaf at all in either direction —
the closure handed to `iter::from_fn` pushes the children but then falls
through to `None`, which ends the iteration, so the lower-bit subtree is
never visited. -/
theorem items_example_empty :
    twoLeafSlab.items false = .out [] ∧
    twoLeafSlab.items true = .out [] ∧
    twoLeafSlab.header.leaf_count = 2 := by
  refine ⟨by decide, by decide, rfl⟩

/-- Claim C3 counterexample: on a malformed slab whose single inner node
is its own child on both sides, the descent of `Slab::get` is still
running after `arena capacity + 1` steps — it has neither returned a
result nor failed with any corruption error (the source has no such error
and no step bound). -/
theorem get_unbounded_counterexample :
    Slab.get cycSlab 5 (cycSlab.nodes.length + 1) = .outOfFuel ∧
    cycSlab.nodes.length = 1 := by
  refine ⟨by decide, rfl⟩

/-- Claim C3 amended: the descent of `Slab::get` carries no step bound and
no corruption error; on the cyclic slab it never terminates — for every
fuel bound the fuel-indexed embedding is still running (`outOfFuel`). -/
theorem get_cyclic_diverges (fuel : Nat) :
    Slab.get cycSlab 5 fuel = .outOfFuel := by
  have step : ∀ k, getLoop cycSlab 5 0 (k + 1) = getLoop cycSlab 5 0 k :=
    fun _ => rfl
  have h : ∀ n, getLoop cycSlab 5 0 n = .outOfFuel := by
    intro n
    induction n with
    | zero => rfl
    | succ k ih => exact (step k).trans ih
  exact h fuel

/-- Claim C7 counterexample: a slab declaring `leaf_count = 0` whose root
slot holds a stale leaf.  `Slab::items` never consults `leaf_count`, so
the traversal yields that leaf instead of the empty sequence. -/
theorem empty_slab_iterate_counterexample :
    staleSlab.header.leaf_count = 0 ∧
    staleSlab.items false = .out [.leafNode 0 0 exKeyA 0 5 0] ∧
    (Orderbook.mk exMarket false staleSlab).get_l2 2 =
      some [(100, 5, 100, 5)] := by
  refine ⟨rfl, by decide, ?_⟩
  show Orderbook.get_l2 _ _ = _
  unfold Orderbook.get_l2
  norm_num [Slab.items, itemsRun, staleSlab, l2Loop, SlabNode.key,
    SlabNode.quantity, get_price_from_key, exKeyA,
    MarketParams.price_lots_to_number, MarketParams.base_size_lots_to_number,
    divide_bn_to_number, MarketParams.base_spl_token_multiplier,
    MarketParams.quote_spl_token_multiplier, exMarket,
    Nat.shiftRight_eq_div_pow]

/-- Claim C7 amended: on every slab with `leaf_count = 0`, `Slab::get`
returns `None`; and provided the root slot holds a non-leaf node, the
traversal yields the empty sequence in both directions and `get_l2`
returns the empty list for every depth. -/
theorem empty_slab_behavior (s : Slab) (key fuel depth : Nat)
    (m : MarketParams) (d : Bool)
    (hleaf : s.header.leaf_count = 0) :
    s.get key fuel = .notFound ∧
    (∀ n : SlabNode, s.nodes[s.header.root]? = some n → n.isLeaf = false →
      (∀ b : Bool, s.items b = .out []) ∧
      (Orderbook.mk m d s).get_l2 depth = some []) := by
  refine ⟨by simp [Slab.get, hleaf], ?_⟩
  intro n hroot hn
  have hitems : ∀ b : Bool, s.items b = .out [] := by
    intro b
    unfold Slab.items itemsRun
    rw [hroot]
    cases n <;> simp [SlabNode.isLeaf] at hn ⊢
  refine ⟨hitems, ?_⟩
  show Orderbook.get_l2 _ _ = _
  unfold Orderbook.get_l2
  rw [show (Orderbook.mk m d s).slab = s from rfl,
      show (Orderbook.mk m d s).is_bids = d from rfl, hitems d]
  rfl

/-- Witness for `empty_slab_behavior`: the find conjunct on both the
well-formed empty slab and the stale-leaf slab (it holds for any
`leaf_count = 0` slab), and the iterate/level2 conjuncts on the
well-formed empty slab whose root slot is a recycled free node. -/
theorem empty_slab_behavior_witness :
    emptyFreeSlab.header.leaf_count = 0 ∧
    emptyFreeSlab.get 7 5 = .notFound ∧
    staleSlab.header.leaf_count = 0 ∧
    staleSlab.get 7 5 = .notFound ∧
    emptyFreeSlab.items false = .out [] ∧
    (Orderbook.mk exMarket false emptyFreeSlab).get_l2 3 = some [] := by
  have h1 := empty_slab_behavior emptyFreeSlab 7 5 3 exMarket false rfl
  have h2 := empty_slab_behavior staleSlab 7 5 3 exMarket false rfl
  exact ⟨rfl, h1.1, rfl, h2.1,
         (h1.2 .lastFreeNode rfl rfl).1 false, (h1.2 .lastFreeNode rfl rfl).2⟩

/-- Claim C4 counterexample: decoding a buffer whose node record carries
tag 99, and a buffer whose length cannot hold the declared node count,
aborts the decode (`none`, modelling the source's non-exhaustive match /
out-of-range read); no `FormatError` value exists anywhere in the source
to be returned. -/
theorem decode_slab_counterexample :
    decodeSlab buf99 = none ∧ decodeSlab shortBuf = none := by
  refine ⟨by decide, by decide⟩

/-- Claim C4 amended: slab decoding has no graceful error path — a node
record whose 4-byte tag is outside the five known variants hits no match
arm and the decode aborts, and a buffer too short for even the header
aborts as well; in neither case is an error value or a default value
produced. -/
theorem decode_slab_no_format_error :
    (∀ (b : List Nat) (off tag : Nat), readLE b off 4 = some tag → 5 ≤ tag →
      decodeSlabNode b off = none) ∧
    (∀ b : List Nat, b.length < 28 → decodeSlab b = none) := by
  constructor
  · intro b off tag htag h5
    unfold decodeSlabNode
    rw [htag]
    obtain ⟨t, rfl⟩ : ∃ t, tag = t + 5 := ⟨tag - 5, by omega⟩
    rfl
  · intro b hb
    have h24 : readLE b 24 4 = none := by
      unfold readLE
      rw [if_neg (by omega)]
    unfold decodeSlab decodeSlabHeader
    cases h0 : readLE b 0 4 <;> simp [h0, h24]

/-- Witness for `decode_slab_no_format_error`: the tag-99 record of
`buf99`, and a five-byte buffer. -/
theorem decode_slab_no_format_error_witness :
    readLE buf99 28 4 = some 99 ∧ 5 ≤ 99 ∧
    decodeSlabNode buf99 28 = none ∧
    (List.replicate 5 0).length < 28 ∧
    decodeSlab (List.replicate 5 0) = none :=
  ⟨by decide, by norm_num,
   decode_slab_no_format_error.1 buf99 28 99 (by decide) (by norm_num),
   by decide,
   decode_slab_no_format_error.2 (List.replicate 5 0) (by decide)⟩

end OpenBook
